import Mathlib

/-!
Shallow embedding of the Client-Server repository: a session-oriented
datagram protocol over UDP with two independent implementations
(implementation A: asyncio based, files src/A/client.py and src/A/server.py;
implementation B: thread based, files src/B/client.py and src/B/server.py).

Definitions mirror the Python source code.  Machine integers that the source
reads from the wire are modelled as Nat with explicit range bounds where the
wire format imposes them; Python dictionaries become functions Nat to Option;
paths of the source that would raise an uncaught Python exception (KeyError)
become Option results.  Theorems at the end settle the specification claims.
-/

/-- Command byte for HELLO, value 1 in all four source files. -/
def HELLO : Nat := 1

/-- Command byte for DATA, value 2 in all four source files. -/
def DATA : Nat := 2

/-- Command byte for ALIVE, value 3 in all four source files. -/
def ALIVE : Nat := 3

/-- Command byte for GOODBYE, value 4 in all four source files. -/
def GOODBYE : Nat := 4

/-- The decoded fields of the 20 byte wire header packed with
struct.pack with format string HBBIIQ in network byte order. -/
structure Header where
  magic : Nat
  version : Nat
  command : Nat
  sequence_number : Nat
  session_id : Nat
  logical_clock : Nat
  deriving Repr, DecidableEq

/-- Big-endian byte string of a given width, least significant byte last,
modelling how struct.pack lays out one unsigned field. -/
def toBytesBE : Nat → Nat → List Nat
  | 0, _ => []
  | n + 1, v => toBytesBE n (v / 256) ++ [v % 256]

/-- Big-endian read of a byte string, modelling struct.unpack of one
unsigned field. -/
def fromBytesBE (bs : List Nat) : Nat :=
  bs.foldl (fun acc b => acc * 256 + b) 0

/-- Model of struct.pack with format HBBIIQ: 2 + 1 + 1 + 4 + 4 + 8 = 20
bytes, big endian.  Python struct.pack raises for out of range values, so
the model returns none outside the ranges of the format. -/
def struct_pack_HBBIIQ (magic version command sequence_number session_id logical_clock : Nat) :
    Option (List Nat) :=
  if magic < 2 ^ 16 ∧ version < 2 ^ 8 ∧ command < 2 ^ 8 ∧ sequence_number < 2 ^ 32 ∧
      session_id < 2 ^ 32 ∧ logical_clock < 2 ^ 64 then
    some (toBytesBE 2 magic ++ toBytesBE 1 version ++ toBytesBE 1 command ++
      toBytesBE 4 sequence_number ++ toBytesBE 4 session_id ++ toBytesBE 8 logical_clock)
  else
    none

/-- Model of struct.unpack with format HBBIIQ on a byte string: fails
(struct.error) unless exactly 20 bytes are supplied. -/
def struct_unpack_HBBIIQ (bs : List Nat) : Option Header :=
  if bs.length = 20 then
    some { magic := fromBytesBE (bs.take 2),
           version := fromBytesBE ((bs.drop 2).take 1),
           command := fromBytesBE ((bs.drop 3).take 1),
           sequence_number := fromBytesBE ((bs.drop 4).take 4),
           session_id := fromBytesBE ((bs.drop 8).take 4),
           logical_clock := fromBytesBE ((bs.drop 12).take 8) }
  else
    none

/-- Encoding of a full message as done by Client.send_message in
src/A/client.py: the packed header followed by the payload bytes. -/
def encode_message (command sequence_number session_id logical_clock : Nat)
    (payload : List Nat) : Option (List Nat) :=
  match struct_pack_HBBIIQ 0xC461 1 command sequence_number session_id logical_clock with
  | some header => some (header ++ payload)
  | none => none

/-- Decoding of a full message as done by ServerSession.handle_message in
src/A/server.py and Client.decode_message in src/A/client.py: unpack the
first 20 bytes as the header, the rest is the payload. -/
def decode_message (msg : List Nat) : Option (Header × List Nat) :=
  match struct_unpack_HBBIIQ (msg.take 20) with
  | some h => some (h, msg.drop 20)
  | none => none

/-- Python dict with Nat keys, modelled as a function to Option. -/
def NatMap (α : Type) : Type := Nat → Option α

/-- Model of dict assignment d[k] = v. -/
def NatMap.insert {α : Type} (m : NatMap α) (k : Nat) (v : α) : NatMap α :=
  fun j => if j = k then some v else m j

/-- Model of del d[k] on a key known to be present (the KeyError on an
absent key is handled by the Option at each call site). -/
def NatMap.erase {α : Type} (m : NatMap α) (k : Nat) : NatMap α :=
  fun j => if j = k then none else m j

/-- The empty dict. -/
def NatMap.empty {α : Type} : NatMap α :=
  fun _ => none

namespace A

/-- Model of UDPServerProtocol.update_logical_clock in src/A/server.py:
with a received clock value greater than the local clock the local clock
becomes received plus one, otherwise it is incremented by one; the new
value is returned. -/
def UDPServerProtocol.update_logical_clock (logical_clock : Nat)
    (received_clock : Option Nat) : Nat :=
  match received_clock with
  | some rc => if rc > logical_clock then rc + 1 else logical_clock + 1
  | none => logical_clock + 1

/-- Model of Client.update_logical_clock in src/A/client.py (nested
conditional in the source, extensionally the same merge rule). -/
def Client.update_logical_clock (logical_clock : Nat) (new_value : Option Nat) : Nat :=
  match new_value with
  | some v => if v > logical_clock then v + 1 else logical_clock + 1
  | none => logical_clock + 1

/-- The per-session fields of ServerSession in src/A/server.py.  The state
strings are the ones the source assigns; idle_timer is true while an idle
timer task is set; the peer address is abstracted to a Nat. -/
structure ServerSession where
  client_address : Nat
  session_id : Nat
  expected_sequence_number : Nat
  state : String
  idle_timer : Bool
  deriving Repr, DecidableEq

/-- Model of ServerSession.__init__ in src/A/server.py: the expected
sequence number starts at the initial (HELLO) sequence number plus one,
the state starts as WAIT_FOR_HELLO, no timer is set yet. -/
def ServerSession.init (client_address session_id initial_sequence_number : Nat) :
    ServerSession :=
  { client_address := client_address
    session_id := session_id
    expected_sequence_number := initial_sequence_number + 1
    state := "WAIT_FOR_HELLO"
    idle_timer := false }

/-- Model of ServerSession.send_message in src/A/server.py: advance the
process-wide logical clock by one (update_logical_clock with no received
value), then pack a header stamped with the freshly advanced clock.  The
server never sends a payload, so only the header is produced.  Returns the
new clock and the header handed to transport.sendto. -/
def ServerSession.send_message (s : ServerSession) (logical_clock : Nat)
    (command sequence_number : Nat) : Nat × Header :=
  let logical_clock_value := UDPServerProtocol.update_logical_clock logical_clock none
  (logical_clock_value,
   { magic := 0xC461, version := 1, command := command,
     sequence_number := sequence_number, session_id := s.session_id,
     logical_clock := logical_clock_value })

/-- Effect of one session-level handler in src/A/server.py: the logical
clock afterwards, the mutated session, the headers passed to sendto in
order, the sequence numbers printed as lost packets, and whether
terminate() was called (which removes the session from the table). -/
structure SessionResult where
  logical_clock : Nat
  session : ServerSession
  sent : List Header
  lost : List Nat
  terminated : Bool
  deriving Repr, DecidableEq

/-- Model of ServerSession.handle_hello in src/A/server.py. -/
def ServerSession.handle_hello (s : ServerSession) (logical_clock : Nat)
    (sequence_number : Nat) : SessionResult :=
  if s.state = "WAIT_FOR_HELLO" then
    let r := s.send_message logical_clock HELLO sequence_number
    { logical_clock := r.1
      session := { s with state := "RECEIVE", idle_timer := true }
      sent := [r.2], lost := [], terminated := false }
  else
    let r := s.send_message logical_clock GOODBYE 0
    { logical_clock := r.1
      session := { s with state := "DONE", idle_timer := false }
      sent := [r.2], lost := [], terminated := true }

/-- Model of ServerSession.handle_data in src/A/server.py.  The guard
comparing the sequence number with expected_sequence_number minus one is
written as sequence_number + 1 = expected_sequence_number, which agrees
with the Python comparison on unbounded ints because the sequence number
read from the wire is nonnegative.  Note that the source resets the idle
timer only in the exact-match branch. -/
def ServerSession.handle_data (s : ServerSession) (logical_clock : Nat)
    (sequence_number : Nat) (received_logical_clock : Nat) : SessionResult :=
  if s.state = "RECEIVE" then
    let clock1 := UDPServerProtocol.update_logical_clock logical_clock
      (some received_logical_clock)
    if sequence_number = s.expected_sequence_number then
      let s1 := { s with expected_sequence_number := s.expected_sequence_number + 1 }
      let r := s1.send_message clock1 ALIVE sequence_number
      { logical_clock := r.1
        session := { s1 with idle_timer := true }
        sent := [r.2], lost := [], terminated := false }
    else if sequence_number > s.expected_sequence_number then
      let lostPackets := List.range' s.expected_sequence_number
        (sequence_number - s.expected_sequence_number)
      let s1 := { s with expected_sequence_number := sequence_number + 1 }
      let r := s1.send_message clock1 ALIVE sequence_number
      { logical_clock := r.1
        session := s1
        sent := [r.2], lost := lostPackets, terminated := false }
    else if sequence_number + 1 = s.expected_sequence_number then
      { logical_clock := clock1, session := s, sent := [], lost := [], terminated := false }
    else
      let r := s.send_message clock1 GOODBYE 0
      { logical_clock := r.1
        session := { s with state := "DONE", idle_timer := false }
        sent := [r.2], lost := [], terminated := true }
  else
    { logical_clock := logical_clock, session := s, sent := [], lost := [], terminated := false }

/-- Model of ServerSession.handle_goodbye in src/A/server.py: only acts in
state RECEIVE, otherwise the method body is skipped entirely. -/
def ServerSession.handle_goodbye (s : ServerSession) (logical_clock : Nat) : SessionResult :=
  if s.state = "RECEIVE" then
    let r := s.send_message logical_clock GOODBYE 0
    { logical_clock := r.1
      session := { s with state := "DONE", idle_timer := false }
      sent := [r.2], lost := [], terminated := true }
  else
    { logical_clock := logical_clock, session := s, sent := [], lost := [], terminated := false }

/-- Model of ServerSession.handle_message in src/A/server.py, taking the
already unpacked header of the datagram (the source unpacks the first 20
bytes itself with struct_unpack_HBBIIQ). -/
def ServerSession.handle_message (s : ServerSession) (logical_clock : Nat)
    (h : Header) : SessionResult :=
  if h.magic ≠ 0xC461 ∨ h.version ≠ 1 then
    let r := s.send_message logical_clock GOODBYE 0
    { logical_clock := r.1
      session := { s with state := "DONE", idle_timer := false }
      sent := [r.2], lost := [], terminated := true }
  else if h.session_id ≠ s.session_id then
    let r := s.send_message logical_clock GOODBYE 0
    { logical_clock := r.1
      session := { s with state := "DONE", idle_timer := false }
      sent := [r.2], lost := [], terminated := true }
  else if h.command = HELLO then
    s.handle_hello logical_clock h.sequence_number
  else if h.command = DATA then
    s.handle_data logical_clock h.sequence_number h.logical_clock
  else if h.command = GOODBYE then
    s.handle_goodbye logical_clock
  else
    let r := s.send_message logical_clock GOODBYE 0
    { logical_clock := r.1
      session := { s with state := "DONE", idle_timer := false }
      sent := [r.2], lost := [], terminated := true }

/-- The mutable fields of UDPServerProtocol in src/A/server.py: the
sessions dict, the client_addresses dict, and the process-wide logical
clock. -/
structure UDPServerProtocolState where
  sessions : NatMap ServerSession
  client_addresses : NatMap Nat
  logical_clock : Nat

/-- What UDPServerProtocol.datagram_received in src/A/server.py does with
a datagram before any session handler runs: route it, ignore it, create a
session, or drop it. -/
inductive Dispatch where
  | routed (session_id : Nat)
  | ignored_duplicate
  | created (session_id : Nat)
  | invalid_initial
  deriving Repr, DecidableEq

/-- Model of UDPServerProtocol.datagram_received in src/A/server.py,
taking the session_id, sequence_number and command already sliced out of
the raw bytes (a datagram too short for those slices is dropped by the
struct.error handler before this logic runs).  The source reads
client_addresses with square brackets, so a session_id present in
sessions but absent from client_addresses would raise KeyError, modelled
as none.  Routing creates an asyncio task for handle_message; the table
itself is only mutated here when a new session is created. -/
def UDPServerProtocol.datagram_received (t : UDPServerProtocolState)
    (session_id sequence_number command : Nat) (addr : Nat) :
    Option (UDPServerProtocolState × Dispatch) :=
  match t.sessions session_id with
  | some _ =>
      match t.client_addresses session_id with
      | some bound =>
          if addr = bound then
            some (t, Dispatch.routed session_id)
          else
            some (t, Dispatch.ignored_duplicate)
      | none => none
  | none =>
      if command = HELLO then
        let new_session := ServerSession.init addr session_id sequence_number
        some ({ t with
                  sessions := t.sessions.insert session_id new_session,
                  client_addresses := t.client_addresses.insert session_id addr },
              Dispatch.created session_id)
      else
        some (t, Dispatch.invalid_initial)

/-- Table-level effect of the asyncio task created by datagram_received
running ServerSession.handle_message on the stored session: the session
object in the sessions dict mutates in place, and terminate() deletes the
entry from sessions (and only from sessions). -/
def UDPServerProtocol.deliver (t : UDPServerProtocolState) (session_id : Nat)
    (h : Header) : Option (UDPServerProtocolState × SessionResult) :=
  match t.sessions session_id with
  | some s =>
      let r := s.handle_message t.logical_clock h
      if r.terminated then
        some ({ t with
                  sessions := t.sessions.erase session_id,
                  logical_clock := r.logical_clock }, r)
      else
        some ({ t with
                  sessions := t.sessions.insert session_id r.session,
                  logical_clock := r.logical_clock }, r)
  | none => none

/-- Table-level effect of ServerSession.session_timeout in src/A/server.py
firing on a session still stored in the table: send GOODBYE, set the state
to DONE, then terminate(), which cancels the timer and deletes the entry
from the sessions dict (client_addresses is left untouched).  Returns the
new table, the final session object and the emitted header. -/
def ServerSession.session_timeout (t : UDPServerProtocolState) (session_id : Nat) :
    Option (UDPServerProtocolState × ServerSession × Header) :=
  match t.sessions session_id with
  | some s =>
      let r := s.send_message t.logical_clock GOODBYE 0
      some ({ t with
                sessions := t.sessions.erase session_id,
                logical_clock := r.1 },
            { s with state := "DONE", idle_timer := false }, r.2)
  | none => none

/-- One table-mutating operation of the A server: a raw datagram arriving,
a created task delivering a decoded datagram to its session, or an idle
timer firing. -/
inductive Step where
  | datagram (session_id sequence_number command addr : Nat)
  | deliver (session_id : Nat) (h : Header)
  | timeout (session_id : Nat)

/-- The table after one operation of the A server. -/
def Step.apply (t : UDPServerProtocolState) : Step → Option UDPServerProtocolState
  | Step.datagram session_id sequence_number command addr =>
      match UDPServerProtocol.datagram_received t session_id sequence_number command addr with
      | some r => some r.1
      | none => none
  | Step.deliver session_id h =>
      match UDPServerProtocol.deliver t session_id h with
      | some r => some r.1
      | none => none
  | Step.timeout session_id =>
      match ServerSession.session_timeout t session_id with
      | some r => some r.1
      | none => none

/-- Every session_id with a stored session also has a stored client
address (the implicit invariant of the two dicts in src/A/server.py). -/
def sessions_bound (t : UDPServerProtocolState) : Prop :=
  ∀ session_id : Nat, t.sessions session_id ≠ none → t.client_addresses session_id ≠ none

end A

namespace B

/-- Model of AsyncUDPClient.update_logical_clock in src/B/client.py. -/
def AsyncUDPClient.update_logical_clock (logical_clock : Nat) (new_value : Option Nat) : Nat :=
  match new_value with
  | some v => if v > logical_clock then v + 1 else logical_clock + 1
  | none => logical_clock + 1

/-- Model of UDPServer.update_logical_clock in src/B/server.py. -/
def UDPServer.update_logical_clock (logical_clock : Nat) (received_clock : Option Nat) : Nat :=
  match received_clock with
  | some rc => if rc > logical_clock then rc + 1 else logical_clock + 1
  | none => logical_clock + 1

/-- The per-session fields of ServerSession in src/B/server.py: no state
string, only an active flag; timer is true while a threading.Timer is
armed; the peer address is abstracted to a Nat. -/
structure ServerSession where
  client_address : Nat
  session_id : Nat
  expected_sequence : Nat
  active : Bool
  timer : Bool
  deriving Repr, DecidableEq

/-- Model of ServerSession.__init__ in src/B/server.py: expected_sequence
starts at 0 whatever the sequence number of the HELLO that created the
session, active starts true, no timer armed yet. -/
def ServerSession.init (client_address session_id : Nat) : ServerSession :=
  { client_address := client_address
    session_id := session_id
    expected_sequence := 0
    active := true
    timer := false }

/-- Model of ServerSession.send_message in src/B/server.py: advance the
process-wide logical clock by one and stamp the header with the new
value.  All call sites in the server pass no payload. -/
def ServerSession.send_message (s : ServerSession) (logical_clock : Nat)
    (command seq_num : Nat) : Nat × Header :=
  let current_clock_value := UDPServer.update_logical_clock logical_clock none
  (current_clock_value,
   { magic := 0xC461, version := 1, command := command,
     sequence_number := seq_num, session_id := s.session_id,
     logical_clock := current_clock_value })

/-- Effect of one session-level handler in src/B/server.py: the logical
clock afterwards, the mutated session, the headers passed to sendto in
order, and the pair (expected, received) of the single lost-packets line
the source prints on a gap, if any. -/
structure SessionResult where
  logical_clock : Nat
  session : ServerSession
  sent : List Header
  lost_report : Option (Nat × Nat)
  deriving Repr, DecidableEq

/-- Model of ServerSession.handle_hello in src/B/server.py: reply HELLO
echoing the sequence number; nothing else changes. -/
def ServerSession.handle_hello (s : ServerSession) (logical_clock : Nat)
    (seq_num : Nat) : SessionResult :=
  let r := s.send_message logical_clock HELLO seq_num
  { logical_clock := r.1, session := s, sent := [r.2], lost_report := none }

/-- Model of ServerSession.handle_data in src/B/server.py.  A sequence
number above expected_sequence prints one lost-packets line and sets
expected_sequence to seq_num + 1, then FALLS THROUGH to the shared accept
code which increments expected_sequence once more and replies ALIVE; a
sequence number below expected_sequence returns early with no reply and
no change; an exact match only runs the shared accept code.  The received
clock value is only printed. -/
def ServerSession.handle_data (s : ServerSession) (logical_clock : Nat)
    (seq_num : Nat) (clock_value : Nat) : SessionResult :=
  if seq_num > s.expected_sequence then
    let s1 := { s with expected_sequence := seq_num + 1 }
    let s2 := { s1 with expected_sequence := s1.expected_sequence + 1 }
    let r := s2.send_message logical_clock ALIVE seq_num
    { logical_clock := r.1, session := s2, sent := [r.2]
      lost_report := some (s.expected_sequence, seq_num) }
  else if seq_num < s.expected_sequence then
    { logical_clock := logical_clock, session := s, sent := [], lost_report := none }
  else
    let s1 := { s with expected_sequence := s.expected_sequence + 1 }
    let r := s1.send_message logical_clock ALIVE seq_num
    { logical_clock := r.1, session := s1, sent := [r.2], lost_report := none }

/-- Model of ServerSession.send_goodbye in src/B/server.py: a GOODBYE
carrying the current expected_sequence as its sequence number. -/
def ServerSession.send_goodbye (s : ServerSession) (logical_clock : Nat) : Nat × Header :=
  s.send_message logical_clock GOODBYE s.expected_sequence

/-- Model of ServerSession.handle_goodbye in src/B/server.py: reply
GOODBYE and clear the active flag. -/
def ServerSession.handle_goodbye (s : ServerSession) (logical_clock : Nat) : SessionResult :=
  let r := s.send_goodbye logical_clock
  { logical_clock := r.1, session := { s with active := false }
    sent := [r.2], lost_report := none }

/-- Model of ServerSession.issue_timeout in src/B/server.py, the
threading.Timer callback: send GOODBYE and clear the active flag.  The
session object is NOT removed from the server sessions dict here. -/
def ServerSession.issue_timeout (s : ServerSession) (logical_clock : Nat) : SessionResult :=
  let r := s.send_goodbye logical_clock
  { logical_clock := r.1
    session := { s with active := false, timer := false }
    sent := [r.2], lost_report := none }

/-- Model of ServerSession.process_message in src/B/server.py, taking the
already unpacked header.  The idle timer is cancelled and re-armed before
anything else, even for a datagram with a bad magic or version, which is
then discarded with no reply and no further change; an unrecognised
command also falls off the if chain silently. -/
def ServerSession.process_message (s : ServerSession) (logical_clock : Nat)
    (h : Header) : SessionResult :=
  let s0 := { s with timer := true }
  if h.magic ≠ 0xC461 ∨ h.version ≠ 1 then
    { logical_clock := logical_clock, session := s0, sent := [], lost_report := none }
  else if h.command = HELLO then
    s0.handle_hello logical_clock h.sequence_number
  else if h.command = DATA then
    s0.handle_data logical_clock h.sequence_number h.logical_clock
  else if h.command = GOODBYE then
    s0.handle_goodbye logical_clock
  else
    { logical_clock := logical_clock, session := s0, sent := [], lost_report := none }

/-- The mutable fields of UDPServer in src/B/server.py: the sessions dict
and the process-wide logical clock. -/
structure UDPServerState where
  sessions : NatMap ServerSession
  logical_clock : Nat

/-- How UDPServer.handle_client in src/B/server.py disposed of a
datagram. -/
inductive ClientOutcome where
  | rejected
  | ignored_unknown
  | processed
  deriving Repr, DecidableEq

/-- Result of UDPServer.handle_client: the table afterwards, the protocol
headers sent, the address a plain-text rejection string was sent to (if
any), and the disposition. -/
structure HandleClientResult where
  table : UDPServerState
  sent : List Header
  rejection_sent_to : Option Nat
  outcome : ClientOutcome

/-- Model of UDPServer.handle_client in src/B/server.py for a datagram
whose 20 byte header unpacked successfully (a shorter datagram is dropped
by the struct.error handler with no clock change).  The received clock is
merged first; a session_id bound to a different address gets one extra
clock tick and a plain-text rejection (send_rejection) and nothing else
changes; an unknown session_id with a non-HELLO command is ignored;
otherwise the (possibly new) session processes the message and is deleted
from the dict afterwards when its active flag is cleared. -/
def UDPServer.handle_client (t : UDPServerState) (h : Header)
    (client_address : Nat) : HandleClientResult :=
  let clock1 := UDPServer.update_logical_clock t.logical_clock (some h.logical_clock)
  match t.sessions h.session_id with
  | some session =>
      if session.client_address ≠ client_address then
        let clock2 := UDPServer.update_logical_clock clock1 none
        { table := { t with logical_clock := clock2 }
          sent := [], rejection_sent_to := some client_address
          outcome := ClientOutcome.rejected }
      else
        let r := session.process_message clock1 h
        let sessions2 :=
          if r.session.active then t.sessions.insert h.session_id r.session
          else t.sessions.erase h.session_id
        { table := { sessions := sessions2, logical_clock := r.logical_clock }
          sent := r.sent, rejection_sent_to := none
          outcome := ClientOutcome.processed }
  | none =>
      if h.command = HELLO then
        let session := ServerSession.init client_address h.session_id
        let session := { session with timer := true }
        let r := session.process_message clock1 h
        let sessions2 :=
          if r.session.active then t.sessions.insert h.session_id r.session
          else t.sessions.erase h.session_id
        { table := { sessions := sessions2, logical_clock := r.logical_clock }
          sent := r.sent, rejection_sent_to := none
          outcome := ClientOutcome.processed }
      else
        { table := { t with logical_clock := clock1 }
          sent := [], rejection_sent_to := none
          outcome := ClientOutcome.ignored_unknown }

/-- Table-level effect of a threading.Timer firing
ServerSession.issue_timeout on a session still referenced by the sessions
dict of src/B/server.py: the shared session object mutates in place, and
no code path removes the dict entry at expiry time. -/
def UDPServer.timeout_step (t : UDPServerState) (session_id : Nat) :
    Option (UDPServerState × SessionResult) :=
  match t.sessions session_id with
  | some s =>
      let r := s.issue_timeout t.logical_clock
      some ({ sessions := t.sessions.insert session_id r.session,
              logical_clock := r.logical_clock }, r)
  | none => none

/-- The mutable fields of AsyncUDPClient in src/B/client.py that matter
to the protocol: the random session_id, the sequence counter and the
logical clock. -/
structure AsyncUDPClient where
  session_id : Nat
  sequence_number : Nat
  logical_clock : Nat
  deriving Repr, DecidableEq

/-- Model of AsyncUDPClient.send_message in src/B/client.py: the header
handed to transport.sendto is stamped with the logical clock value the
process holds at the sendto call; the sequence counter and then the
logical clock are advanced afterwards.  Returns the new client state and
the sent header plus payload. -/
def AsyncUDPClient.send_message (st : AsyncUDPClient) (command : Nat)
    (data : List Nat) : AsyncUDPClient × Header × List Nat :=
  let header : Header :=
    { magic := 0xC461, version := 1, command := command,
      sequence_number := st.sequence_number, session_id := st.session_id,
      logical_clock := st.logical_clock }
  let st1 := { st with sequence_number := st.sequence_number + 1 }
  let st2 := { st1 with
                 logical_clock := AsyncUDPClient.update_logical_clock st1.logical_clock none }
  (st2, header, data)

end B

/-- C2: for every current local logical clock value and every received peer
clock value v, the passive merge yields v + 1 when v is greater than the
local value and local + 1 otherwise, equivalently max local v + 1 in the
first case; proved for the A server merge (src/A/server.py) and the B
client merge (src/B/client.py), the two places the claim cites. -/
theorem claim_C2_clock_merge (lc v : Nat) :
    (v > lc →
      A.UDPServerProtocol.update_logical_clock lc (some v) = v + 1 ∧
      A.UDPServerProtocol.update_logical_clock lc (some v) = max lc v + 1 ∧
      B.AsyncUDPClient.update_logical_clock lc (some v) = v + 1) ∧
    (v ≤ lc →
      A.UDPServerProtocol.update_logical_clock lc (some v) = lc + 1 ∧
      B.AsyncUDPClient.update_logical_clock lc (some v) = lc + 1) := by
  constructor
  · intro h
    refine ⟨?_, ?_, ?_⟩ <;>
      simp [A.UDPServerProtocol.update_logical_clock, B.AsyncUDPClient.update_logical_clock,
        h, Nat.max_eq_right (Nat.le_of_lt h)]
  · intro h
    constructor <;>
      simp [A.UDPServerProtocol.update_logical_clock, B.AsyncUDPClient.update_logical_clock,
        Nat.not_lt.mpr h]

/-- C1 counterexample: the claim fails on the B implementation.  A B
session with expected_sequence = 5 receiving DATA with sequence number 7
ends with expected_sequence = 9, not 7 + 1 = 8 as the claim states, and a
B session with expected_sequence = 5 receiving DATA with sequence number
3 (two behind) is silently discarded instead of triggering GOODBYE and
termination. -/
theorem claim_C1_counterexample :
    (B.ServerSession.handle_data
        { client_address := 0, session_id := 1, expected_sequence := 5,
          active := true, timer := true } 0 7 0).session.expected_sequence = 9 ∧
    (B.ServerSession.handle_data
        { client_address := 0, session_id := 1, expected_sequence := 5,
          active := true, timer := true } 0 7 0).session.expected_sequence ≠ 7 + 1 ∧
    (B.ServerSession.handle_data
        { client_address := 0, session_id := 1, expected_sequence := 5,
          active := true, timer := true } 0 3 0).sent = [] ∧
    (B.ServerSession.handle_data
        { client_address := 0, session_id := 1, expected_sequence := 5,
          active := true, timer := true } 0 3 0).session.active = true := by
  refine ⟨rfl, by decide, rfl, rfl⟩

/-- C1 amended: in the A implementation a session in state RECEIVE
classifies an inbound DATA with sequence number seq against expected = N
exactly as the claim states (seq = N: accept, ALIVE echoing seq, expected
becomes N + 1; seq > N: every integer in [N, seq) reported lost, accept,
expected becomes seq + 1, ALIVE echoing seq; seq = N - 1: discarded, no
reply, no state change; seq < N - 1: GOODBYE and termination).  In the B
implementation: seq = N accepts with ALIVE and expected becomes N + 1;
seq > N prints a single lost-packets line for the pair (N, seq), accepts,
emits ALIVE echoing seq, but expected becomes seq + 2; any seq < N is
discarded with no reply and no state change, and no sequence number ever
causes termination. -/
theorem claim_C1_sequence_classification
    (lc N seq rc : Nat) (sa : A.ServerSession) (sb : B.ServerSession)
    (hA : sa.state = "RECEIVE") (hNa : sa.expected_sequence_number = N)
    (hNb : sb.expected_sequence = N) :
    (seq = N →
      (A.ServerSession.handle_data sa lc seq rc).session.expected_sequence_number = N + 1 ∧
      (A.ServerSession.handle_data sa lc seq rc).session.state = "RECEIVE" ∧
      (∃ hdr, (A.ServerSession.handle_data sa lc seq rc).sent = [hdr] ∧
        hdr.command = ALIVE ∧ hdr.sequence_number = seq) ∧
      (A.ServerSession.handle_data sa lc seq rc).lost = [] ∧
      (A.ServerSession.handle_data sa lc seq rc).terminated = false) ∧
    (seq > N →
      (A.ServerSession.handle_data sa lc seq rc).session.expected_sequence_number = seq + 1 ∧
      (∀ i : Nat, i ∈ (A.ServerSession.handle_data sa lc seq rc).lost ↔ N ≤ i ∧ i < seq) ∧
      (∃ hdr, (A.ServerSession.handle_data sa lc seq rc).sent = [hdr] ∧
        hdr.command = ALIVE ∧ hdr.sequence_number = seq) ∧
      (A.ServerSession.handle_data sa lc seq rc).terminated = false) ∧
    (seq + 1 = N →
      (A.ServerSession.handle_data sa lc seq rc).session = sa ∧
      (A.ServerSession.handle_data sa lc seq rc).sent = [] ∧
      (A.ServerSession.handle_data sa lc seq rc).terminated = false) ∧
    (seq + 1 < N →
      (∃ hdr, (A.ServerSession.handle_data sa lc seq rc).sent = [hdr] ∧
        hdr.command = GOODBYE) ∧
      (A.ServerSession.handle_data sa lc seq rc).session.state = "DONE" ∧
      (A.ServerSession.handle_data sa lc seq rc).terminated = true) ∧
    (seq = N →
      (B.ServerSession.handle_data sb lc seq rc).session.expected_sequence = N + 1 ∧
      (∃ hdr, (B.ServerSession.handle_data sb lc seq rc).sent = [hdr] ∧
        hdr.command = ALIVE ∧ hdr.sequence_number = seq) ∧
      (B.ServerSession.handle_data sb lc seq rc).lost_report = none ∧
      (B.ServerSession.handle_data sb lc seq rc).session.active = sb.active) ∧
    (seq > N →
      (B.ServerSession.handle_data sb lc seq rc).session.expected_sequence = seq + 2 ∧
      (B.ServerSession.handle_data sb lc seq rc).lost_report = some (N, seq) ∧
      (∃ hdr, (B.ServerSession.handle_data sb lc seq rc).sent = [hdr] ∧
        hdr.command = ALIVE ∧ hdr.sequence_number = seq) ∧
      (B.ServerSession.handle_data sb lc seq rc).session.active = sb.active) ∧
    (seq < N →
      (B.ServerSession.handle_data sb lc seq rc).session = sb ∧
      (B.ServerSession.handle_data sb lc seq rc).sent = [] ∧
      (B.ServerSession.handle_data sb lc seq rc).session.active = sb.active) := by
  refine ⟨?_, ?_, ?_, ?_, ?_, ?_, ?_⟩
  · intro h
    subst h
    simp [A.ServerSession.handle_data, A.ServerSession.send_message, hA, hNa, ALIVE]
  · intro h
    have h1 : ¬ (seq = N) := by omega
    have h2 : N < seq := h
    refine ⟨?_, ?_, ?_, ?_⟩ <;>
      simp [A.ServerSession.handle_data, A.ServerSession.send_message, hA, hNa, h1, h2,
        List.mem_range'_1, ALIVE]
    omega
  · intro h
    have h1 : ¬ (seq = N) := by omega
    have h2 : ¬ (N < seq) := by omega
    simp [A.ServerSession.handle_data, hA, hNa, h1, h2, h]
  · intro h
    have h1 : ¬ (seq = N) := by omega
    have h2 : ¬ (N < seq) := by omega
    have h3 : ¬ (seq + 1 = N) := by omega
    simp [A.ServerSession.handle_data, A.ServerSession.send_message, hA, hNa, h1, h2, h3,
      GOODBYE]
  · intro h
    have h1 : ¬ (N < seq) := by omega
    have h2 : ¬ (seq < N) := by omega
    simp [B.ServerSession.handle_data, B.ServerSession.send_message, hNb, h1, h2, h, ALIVE]
  · intro h
    have h1 : N < seq := h
    simp [B.ServerSession.handle_data, B.ServerSession.send_message, hNb, h1, ALIVE]
  · intro h
    have h1 : ¬ (N < seq) := by omega
    have h2 : seq < N := h
    simp [B.ServerSession.handle_data, hNb, h1, h2]

/-- Witness for C1 at a session with expected = 5 in both implementations,
exercised at seq = 5, 7, 4 and 3. -/
theorem claim_C1_sequence_classification_witness :
    (A.ServerSession.handle_data
        { client_address := 0, session_id := 1, expected_sequence_number := 5,
          state := "RECEIVE", idle_timer := true } 0 7 0).session.expected_sequence_number
      = 7 + 1 ∧
    (∀ i : Nat, i ∈ (A.ServerSession.handle_data
        { client_address := 0, session_id := 1, expected_sequence_number := 5,
          state := "RECEIVE", idle_timer := true } 0 7 0).lost ↔ 5 ≤ i ∧ i < 7) ∧
    (B.ServerSession.handle_data
        { client_address := 0, session_id := 1, expected_sequence := 5,
          active := true, timer := true } 0 3 0).sent = [] := by
  have h := claim_C1_sequence_classification 0 5 7 0
    { client_address := 0, session_id := 1, expected_sequence_number := 5,
      state := "RECEIVE", idle_timer := true }
    { client_address := 0, session_id := 1, expected_sequence := 5,
      active := true, timer := true } rfl rfl rfl
  have h2 := claim_C1_sequence_classification 0 5 3 0
    { client_address := 0, session_id := 1, expected_sequence_number := 5,
      state := "RECEIVE", idle_timer := true }
    { client_address := 0, session_id := 1, expected_sequence := 5,
      active := true, timer := true } rfl rfl rfl
  exact ⟨(h.2.1 (by decide)).1, (h.2.1 (by decide)).2.1,
    (h2.2.2.2.2.2.2 (by decide)).2.1⟩

/-- Length of struct.pack output for one field. -/
theorem toBytesBE_length (n v : Nat) : (toBytesBE n v).length = n := by
  induction n generalizing v with
  | zero => rfl
  | succ n ih => simp [toBytesBE, ih]

/-- Big-endian read of a byte string extended on the right. -/
theorem fromBytesBE_append_singleton (xs : List Nat) (b : Nat) :
    fromBytesBE (xs ++ [b]) = fromBytesBE xs * 256 + b := by
  simp [fromBytesBE, List.foldl_append]

/-- Reading back the big-endian bytes of an in-range value recovers it. -/
theorem fromBytesBE_toBytesBE (n : Nat) : ∀ v : Nat, v < 256 ^ n →
    fromBytesBE (toBytesBE n v) = v := by
  induction n with
  | zero =>
      intro v h
      have hv : v = 0 := by simpa [Nat.lt_one_iff] using h
      subst hv
      rfl
  | succ n ih =>
      intro v h
      have hdiv : v / 256 < 256 ^ n := by
        rw [Nat.div_lt_iff_lt_mul (by norm_num : 0 < (256 : Nat))]
        calc v < 256 ^ (n + 1) := h
          _ = 256 ^ n * 256 := by rw [pow_succ]
      have hstep : toBytesBE (n + 1) v = toBytesBE n (v / 256) ++ [v % 256] := rfl
      rw [hstep, fromBytesBE_append_singleton, ih (v / 256) hdiv]
      omega

/-- Witness for C2 at local = 3 with v = 7 and v = 2. -/
theorem claim_C2_clock_merge_witness :
    (A.UDPServerProtocol.update_logical_clock 3 (some 7) = 8 ∧
      A.UDPServerProtocol.update_logical_clock 3 (some 7) = max 3 7 + 1 ∧
      B.AsyncUDPClient.update_logical_clock 3 (some 7) = 8) ∧
    (A.UDPServerProtocol.update_logical_clock 3 (some 2) = 4 ∧
      B.AsyncUDPClient.update_logical_clock 3 (some 2) = 4) :=
  ⟨(claim_C2_clock_merge 3 7).1 (by decide), (claim_C2_clock_merge 3 2).2 (by decide)⟩

/-- Unpacking the 20 packed header bytes recovers every field. -/
theorem struct_unpack_pack (magic version command seq sid clock : Nat)
    (h0 : magic < 2 ^ 16) (h1 : version < 2 ^ 8) (h2 : command < 2 ^ 8)
    (h3 : seq < 2 ^ 32) (h4 : sid < 2 ^ 32) (h5 : clock < 2 ^ 64) :
    struct_unpack_HBBIIQ (toBytesBE 2 magic ++ toBytesBE 1 version ++ toBytesBE 1 command ++
        toBytesBE 4 seq ++ toBytesBE 4 sid ++ toBytesBE 8 clock)
      = some { magic := magic, version := version, command := command,
               sequence_number := seq, session_id := sid, logical_clock := clock } := by
  have la : (toBytesBE 2 magic).length = 2 := toBytesBE_length 2 magic
  have lb : (toBytesBE 1 version).length = 1 := toBytesBE_length 1 version
  have lc : (toBytesBE 1 command).length = 1 := toBytesBE_length 1 command
  have ld : (toBytesBE 4 seq).length = 4 := toBytesBE_length 4 seq
  have le : (toBytesBE 4 sid).length = 4 := toBytesBE_length 4 sid
  have lf : (toBytesBE 8 clock).length = 8 := toBytesBE_length 8 clock
  set a := toBytesBE 2 magic with ha
  set b := toBytesBE 1 version with hb
  set c := toBytesBE 1 command with hc
  set d := toBytesBE 4 seq with hd
  set e := toBytesBE 4 sid with he
  set f := toBytesBE 8 clock with hf
  have hlen : (a ++ b ++ c ++ d ++ e ++ f).length = 20 := by
    simp [la, lb, lc, ld, le, lf]
  have hd2 : (a ++ b ++ c ++ d ++ e ++ f).drop 2 = b ++ c ++ d ++ e ++ f := by
    simp only [List.append_assoc]
    exact List.drop_left' la
  have hd3 : (a ++ b ++ c ++ d ++ e ++ f).drop 3 = c ++ d ++ e ++ f := by
    have : (3 : Nat) = 2 + 1 := rfl
    rw [this, ← List.drop_drop, hd2]
    simp only [List.append_assoc]
    exact List.drop_left' lb
  have hd4 : (a ++ b ++ c ++ d ++ e ++ f).drop 4 = d ++ e ++ f := by
    have : (4 : Nat) = 3 + 1 := rfl
    rw [this, ← List.drop_drop, hd3]
    simp only [List.append_assoc]
    exact List.drop_left' lc
  have hd8 : (a ++ b ++ c ++ d ++ e ++ f).drop 8 = e ++ f := by
    have : (8 : Nat) = 4 + 4 := rfl
    rw [this, ← List.drop_drop, hd4]
    simp only [List.append_assoc]
    exact List.drop_left' ld
  have hd12 : (a ++ b ++ c ++ d ++ e ++ f).drop 12 = f := by
    have : (12 : Nat) = 8 + 4 := rfl
    rw [this, ← List.drop_drop, hd8]
    exact List.drop_left' le
  have ht2 : (a ++ b ++ c ++ d ++ e ++ f).take 2 = a := by
    simp only [List.append_assoc]
    exact List.take_left' la
  have htb : (b ++ c ++ d ++ e ++ f).take 1 = b := by
    simp only [List.append_assoc]
    exact List.take_left' lb
  have htc : (c ++ d ++ e ++ f).take 1 = c := by
    simp only [List.append_assoc]
    exact List.take_left' lc
  have htd : (d ++ e ++ f).take 4 = d := by
    simp only [List.append_assoc]
    exact List.take_left' ld
  have hte : (e ++ f).take 4 = e := by
    exact List.take_left' le
  have htf : f.take 8 = f := List.take_of_length_le (by omega)
  rw [struct_unpack_HBBIIQ, if_pos hlen]
  rw [ht2, hd2, htb, hd3, htc, hd4, htd, hd8, hte, hd12, htf]
  rw [ha, hb, hc, hd, he, hf]
  rw [fromBytesBE_toBytesBE 2 magic (by norm_num at h0 ⊢; omega),
    fromBytesBE_toBytesBE 1 version (by norm_num at h1 ⊢; omega),
    fromBytesBE_toBytesBE 1 command (by norm_num at h2 ⊢; omega),
    fromBytesBE_toBytesBE 4 seq (by norm_num at h3 ⊢; omega),
    fromBytesBE_toBytesBE 4 sid (by norm_num at h4 ⊢; omega),
    fromBytesBE_toBytesBE 8 clock (by norm_num at h5 ⊢; omega)]

/-- C9: for in-range header fields and any payload, encoding produces some
message of exactly 20 + payload length bytes, and decoding that message
returns exactly the original fields (with the fixed magic 0xC461 and
version 1) and the original payload. -/
theorem claim_C9_header_roundtrip (command seq sid clock : Nat) (payload : List Nat)
    (h2 : command < 2 ^ 8) (h3 : seq < 2 ^ 32) (h4 : sid < 2 ^ 32) (h5 : clock < 2 ^ 64) :
    ∃ msg : List Nat,
      encode_message command seq sid clock payload = some msg ∧
      msg.length = 20 + payload.length ∧
      decode_message msg = some
        ({ magic := 0xC461, version := 1, command := command,
           sequence_number := seq, session_id := sid, logical_clock := clock }, payload) := by
  have hcond : (0xC461 : Nat) < 2 ^ 16 ∧ (1 : Nat) < 2 ^ 8 ∧ command < 2 ^ 8 ∧
      seq < 2 ^ 32 ∧ sid < 2 ^ 32 ∧ clock < 2 ^ 64 := by
    refine ⟨by norm_num, by norm_num, h2, h3, h4, h5⟩
  have hpack : struct_pack_HBBIIQ 0xC461 1 command seq sid clock
      = some (toBytesBE 2 0xC461 ++ toBytesBE 1 1 ++ toBytesBE 1 command ++
          toBytesBE 4 seq ++ toBytesBE 4 sid ++ toBytesBE 8 clock) := by
    rw [struct_pack_HBBIIQ, if_pos hcond]
  have hhlen : (toBytesBE 2 0xC461 ++ toBytesBE 1 1 ++ toBytesBE 1 command ++
      toBytesBE 4 seq ++ toBytesBE 4 sid ++ toBytesBE 8 clock).length = 20 := by
    simp [toBytesBE_length]
  refine ⟨(toBytesBE 2 0xC461 ++ toBytesBE 1 1 ++ toBytesBE 1 command ++
      toBytesBE 4 seq ++ toBytesBE 4 sid ++ toBytesBE 8 clock) ++ payload, ?_, ?_, ?_⟩
  · rw [encode_message, hpack]
  · simp [toBytesBE_length]
    omega
  · rw [decode_message]
    have htake : ((toBytesBE 2 0xC461 ++ toBytesBE 1 1 ++ toBytesBE 1 command ++
        toBytesBE 4 seq ++ toBytesBE 4 sid ++ toBytesBE 8 clock) ++ payload).take 20
        = toBytesBE 2 0xC461 ++ toBytesBE 1 1 ++ toBytesBE 1 command ++
          toBytesBE 4 seq ++ toBytesBE 4 sid ++ toBytesBE 8 clock :=
      List.take_left' hhlen
    have hdrop : ((toBytesBE 2 0xC461 ++ toBytesBE 1 1 ++ toBytesBE 1 command ++
        toBytesBE 4 seq ++ toBytesBE 4 sid ++ toBytesBE 8 clock) ++ payload).drop 20
        = payload :=
      List.drop_left' hhlen
    rw [htake, hdrop,
      struct_unpack_pack 0xC461 1 command seq sid clock (by norm_num) (by norm_num) h2 h3 h4 h5]

/-- Witness for C9 at command DATA, seq 1, session 7, clock 5 and a two
byte payload. -/
theorem claim_C9_header_roundtrip_witness :
    ∃ msg : List Nat,
      encode_message DATA 1 7 5 [104, 105] = some msg ∧
      msg.length = 20 + 2 ∧
      decode_message msg = some
        ({ magic := 0xC461, version := 1, command := DATA,
           sequence_number := 1, session_id := 7, logical_clock := 5 }, [104, 105]) :=
  claim_C9_header_roundtrip DATA 1 7 5 [104, 105]
    (by decide) (by decide) (by decide) (by decide)

/-- C3: each single send and each single receive advances the process-wide
logical clock exactly once (one application of the update rule, strictly
greater afterwards), and the header of every sent message carries the
logical clock value the process holds at the sendto call: in the B client
that is the value before the post-send advance, in the A server it is the
value produced by the advance performed at the start of send_message;
the receive path is the clock merge the B server performs on every
inbound datagram. -/
theorem claim_C3_clock_advance_per_op (st : B.AsyncUDPClient) (command : Nat)
    (data : List Nat) (s : A.ServerSession) (lc cmd seq lcB v : Nat) :
    ((B.AsyncUDPClient.send_message st command data).1.logical_clock
        = B.AsyncUDPClient.update_logical_clock st.logical_clock none) ∧
    st.logical_clock < (B.AsyncUDPClient.send_message st command data).1.logical_clock ∧
    (B.AsyncUDPClient.send_message st command data).2.1.logical_clock = st.logical_clock ∧
    (A.ServerSession.send_message s lc cmd seq).1
        = A.UDPServerProtocol.update_logical_clock lc none ∧
    lc < (A.ServerSession.send_message s lc cmd seq).1 ∧
    (A.ServerSession.send_message s lc cmd seq).2.logical_clock
        = (A.ServerSession.send_message s lc cmd seq).1 ∧
    lcB < B.UDPServer.update_logical_clock lcB (some v) := by
  refine ⟨rfl, ?_, rfl, rfl, ?_, rfl, ?_⟩
  · simp [B.AsyncUDPClient.send_message, B.AsyncUDPClient.update_logical_clock]
  · simp [A.ServerSession.send_message, A.UDPServerProtocol.update_logical_clock]
  · simp only [B.UDPServer.update_logical_clock]
    split <;> omega

/-- C4 counterexample: the claim fails on the B implementation.  A B
session receiving a datagram whose magic field is 0 (not 0xC461) sends
nothing (no GOODBYE) and stays active, where the claim requires a GOODBYE
reply and termination. -/
theorem claim_C4_counterexample :
    (B.ServerSession.process_message
        { client_address := 0, session_id := 1, expected_sequence := 0,
          active := true, timer := true } 0
        { magic := 0, version := 1, command := DATA, sequence_number := 0,
          session_id := 1, logical_clock := 0 }).sent = [] ∧
    (B.ServerSession.process_message
        { client_address := 0, session_id := 1, expected_sequence := 0,
          active := true, timer := true } 0
        { magic := 0, version := 1, command := DATA, sequence_number := 0,
          session_id := 1, logical_clock := 0 }).session.active = true := by
  exact ⟨rfl, rfl⟩

/-- C4 amended: on a header whose magic differs from 0xC461 or whose
version differs from 1, the A implementation replies GOODBYE, sets the
state to DONE and terminates, in every state; the B implementation
discards the datagram with no reply, no clock change and no session
change apart from re-arming the idle timer. -/
theorem claim_C4_magic_version (s : A.ServerSession) (lc lcB : Nat) (h hB : Header)
    (sb : B.ServerSession) (hbadA : h.magic ≠ 0xC461 ∨ h.version ≠ 1)
    (hbadB : hB.magic ≠ 0xC461 ∨ hB.version ≠ 1) :
    (∃ hdr, (A.ServerSession.handle_message s lc h).sent = [hdr] ∧
      hdr.command = GOODBYE) ∧
    (A.ServerSession.handle_message s lc h).session.state = "DONE" ∧
    (A.ServerSession.handle_message s lc h).terminated = true ∧
    (B.ServerSession.process_message sb lcB hB).sent = [] ∧
    (B.ServerSession.process_message sb lcB hB).session = { sb with timer := true } ∧
    (B.ServerSession.process_message sb lcB hB).logical_clock = lcB := by
  refine ⟨?_, ?_, ?_, ?_, ?_, ?_⟩ <;>
    simp [A.ServerSession.handle_message, A.ServerSession.send_message,
      B.ServerSession.process_message, hbadA, hbadB, GOODBYE]

/-- Witness for C4 on a header with magic 1 in state RECEIVE for A and an
active B session. -/
theorem claim_C4_magic_version_witness :
    (∃ hdr, (A.ServerSession.handle_message
        { client_address := 0, session_id := 1, expected_sequence_number := 1,
          state := "RECEIVE", idle_timer := true } 0
        { magic := 1, version := 1, command := DATA, sequence_number := 0,
          session_id := 1, logical_clock := 0 }).sent = [hdr] ∧
      hdr.command = GOODBYE) ∧
    (A.ServerSession.handle_message
        { client_address := 0, session_id := 1, expected_sequence_number := 1,
          state := "RECEIVE", idle_timer := true } 0
        { magic := 1, version := 1, command := DATA, sequence_number := 0,
          session_id := 1, logical_clock := 0 }).session.state = "DONE" ∧
    (A.ServerSession.handle_message
        { client_address := 0, session_id := 1, expected_sequence_number := 1,
          state := "RECEIVE", idle_timer := true } 0
        { magic := 1, version := 1, command := DATA, sequence_number := 0,
          session_id := 1, logical_clock := 0 }).terminated = true ∧
    (B.ServerSession.process_message
        { client_address := 0, session_id := 1, expected_sequence := 0,
          active := true, timer := false } 0
        { magic := 1, version := 1, command := DATA, sequence_number := 0,
          session_id := 1, logical_clock := 0 }).sent = [] ∧
    (B.ServerSession.process_message
        { client_address := 0, session_id := 1, expected_sequence := 0,
          active := true, timer := false } 0
        { magic := 1, version := 1, command := DATA, sequence_number := 0,
          session_id := 1, logical_clock := 0 }).session
      = { client_address := 0, session_id := 1, expected_sequence := 0,
          active := true, timer := true } ∧
    (B.ServerSession.process_message
        { client_address := 0, session_id := 1, expected_sequence := 0,
          active := true, timer := false } 0
        { magic := 1, version := 1, command := DATA, sequence_number := 0,
          session_id := 1, logical_clock := 0 }).logical_clock = 0 :=
  claim_C4_magic_version
    { client_address := 0, session_id := 1, expected_sequence_number := 1,
      state := "RECEIVE", idle_timer := true } 0 0
    { magic := 1, version := 1, command := DATA, sequence_number := 0,
      session_id := 1, logical_clock := 0 }
    { magic := 1, version := 1, command := DATA, sequence_number := 0,
      session_id := 1, logical_clock := 0 }
    { client_address := 0, session_id := 1, expected_sequence := 0,
      active := true, timer := false }
    (by decide) (by decide)

/-- C5 counterexample: the claim fails on the B implementation.  A HELLO
with sequence number 5 creating session 9 leaves the stored
expected_sequence at 0, not 5 + 1 = 6. -/
theorem claim_C5_counterexample :
    (B.UDPServer.handle_client
        { sessions := NatMap.empty, logical_clock := 0 }
        { magic := 0xC461, version := 1, command := HELLO, sequence_number := 5,
          session_id := 9, logical_clock := 0 } 3).table.sessions 9
      = some { client_address := 3, session_id := 9, expected_sequence := 0,
               active := true, timer := true } ∧
    (0 : Nat) ≠ 5 + 1 := by
  exact ⟨rfl, by decide⟩

/-- C5 amended: a new A session created from an initial HELLO carrying
sequence number i starts with expected_sequence_number = i + 1, as the
claim states; a new B session starts with expected_sequence = 0 whatever
the sequence number of the HELLO that created it. -/
theorem claim_C5_initial_expected (t : A.UDPServerProtocolState) (sid i addr : Nat)
    (tb : B.UDPServerState) (hd : Header) (addrB : Nat)
    (ha : t.sessions sid = none)
    (hb : tb.sessions hd.session_id = none)
    (hmagic : hd.magic = 0xC461) (hver : hd.version = 1) (hcmd : hd.command = HELLO) :
    (∃ t2 : A.UDPServerProtocolState,
        A.UDPServerProtocol.datagram_received t sid i HELLO addr
          = some (t2, A.Dispatch.created sid) ∧
        t2.sessions sid = some (A.ServerSession.init addr sid i)) ∧
    (A.ServerSession.init addr sid i).expected_sequence_number = i + 1 ∧
    (B.UDPServer.handle_client tb hd addrB).table.sessions hd.session_id
      = some { client_address := addrB, session_id := hd.session_id,
               expected_sequence := 0, active := true, timer := true } := by
  refine ⟨⟨{ t with
               sessions := t.sessions.insert sid (A.ServerSession.init addr sid i),
               client_addresses := t.client_addresses.insert sid addr }, ?_, ?_⟩, rfl, ?_⟩
  · simp [A.UDPServerProtocol.datagram_received, ha]
  · simp [NatMap.insert]
  · simp [B.UDPServer.handle_client, hb, hcmd, hmagic, hver,
      B.ServerSession.process_message, B.ServerSession.handle_hello,
      B.ServerSession.send_message, B.ServerSession.init, NatMap.insert, HELLO]

/-- Witness for C5: empty tables, HELLO with sequence number 5 creating
session 9 from address 3. -/
theorem claim_C5_initial_expected_witness :
    (∃ t2 : A.UDPServerProtocolState,
        A.UDPServerProtocol.datagram_received
            { sessions := NatMap.empty, client_addresses := NatMap.empty,
              logical_clock := 0 } 9 5 HELLO 3
          = some (t2, A.Dispatch.created 9) ∧
        t2.sessions 9 = some (A.ServerSession.init 3 9 5)) ∧
    (A.ServerSession.init 3 9 5).expected_sequence_number = 5 + 1 ∧
    (B.UDPServer.handle_client
        { sessions := NatMap.empty, logical_clock := 0 }
        { magic := 0xC461, version := 1, command := HELLO, sequence_number := 5,
          session_id := 9, logical_clock := 0 } 3).table.sessions 9
      = some { client_address := 3, session_id := 9, expected_sequence := 0,
               active := true, timer := true } := by
  have h := claim_C5_initial_expected
    { sessions := NatMap.empty, client_addresses := NatMap.empty, logical_clock := 0 }
    9 5 3 { sessions := NatMap.empty, logical_clock := 0 }
    { magic := 0xC461, version := 1, command := HELLO, sequence_number := 5,
      session_id := 9, logical_clock := 0 } 3
    rfl rfl rfl rfl rfl
  exact h

/-- C6 counterexample: the claim fails on the A implementation.  A
datagram from address 2 presenting session_id 1, which is bound to
address 0, is ignored with no reply of any kind: datagram_received takes
the print-and-ignore branch, sends nothing and creates no task, where the
claim requires the colliding peer to be answered with a rejection
notice. -/
theorem claim_C6_counterexample :
    A.UDPServerProtocol.datagram_received
        { sessions := NatMap.empty.insert 1
            { client_address := 0, session_id := 1, expected_sequence_number := 6,
              state := "RECEIVE", idle_timer := true },
          client_addresses := NatMap.empty.insert 1 0,
          logical_clock := 0 } 1 5 DATA 2
      = some
        ({ sessions := NatMap.empty.insert 1
             { client_address := 0, session_id := 1, expected_sequence_number := 6,
               state := "RECEIVE", idle_timer := true },
           client_addresses := NatMap.empty.insert 1 0,
           logical_clock := 0 }, A.Dispatch.ignored_duplicate) := by
  rfl

/-- C6 amended: a datagram presenting an in-use session_id from a
different address leaves the incumbent session, its
expected_sequence_number, state and address binding unchanged and is not
routed to the session, in both implementations; the B implementation
answers the colliding peer with a plain-text rejection notice, while the
A implementation sends nothing at all and silently ignores the
datagram. -/
theorem claim_C6_collision_isolation (t : A.UDPServerProtocolState)
    (sid seq cmd addrNew bound : Nat) (sA : A.ServerSession)
    (tb : B.UDPServerState) (hd : Header) (addrB : Nat) (sB : B.ServerSession)
    (h1 : t.sessions sid = some sA) (h2 : t.client_addresses sid = some bound)
    (h3 : addrNew ≠ bound)
    (h4 : tb.sessions hd.session_id = some sB) (h5 : sB.client_address ≠ addrB) :
    A.UDPServerProtocol.datagram_received t sid seq cmd addrNew
      = some (t, A.Dispatch.ignored_duplicate) ∧
    (B.UDPServer.handle_client tb hd addrB).table.sessions = tb.sessions ∧
    (B.UDPServer.handle_client tb hd addrB).sent = [] ∧
    (B.UDPServer.handle_client tb hd addrB).rejection_sent_to = some addrB ∧
    (B.UDPServer.handle_client tb hd addrB).outcome = B.ClientOutcome.rejected := by
  refine ⟨?_, ?_, ?_, ?_, ?_⟩
  · simp [A.UDPServerProtocol.datagram_received, h1, h2, h3]
  all_goals simp [B.UDPServer.handle_client, h4, h5]

/-- Witness for C6: session 1 bound to address 0 in both tables, datagram
arriving from address 2. -/
theorem claim_C6_collision_isolation_witness :
    A.UDPServerProtocol.datagram_received
        { sessions := NatMap.empty.insert 1
            { client_address := 0, session_id := 1, expected_sequence_number := 6,
              state := "RECEIVE", idle_timer := true },
          client_addresses := NatMap.empty.insert 1 0,
          logical_clock := 3 } 1 7 DATA 2
      = some
        ({ sessions := NatMap.empty.insert 1
             { client_address := 0, session_id := 1, expected_sequence_number := 6,
               state := "RECEIVE", idle_timer := true },
           client_addresses := NatMap.empty.insert 1 0,
           logical_clock := 3 }, A.Dispatch.ignored_duplicate) ∧
    (B.UDPServer.handle_client
        { sessions := NatMap.empty.insert 1
            { client_address := 0, session_id := 1, expected_sequence := 6,
              active := true, timer := true },
          logical_clock := 3 }
        { magic := 0xC461, version := 1, command := DATA, sequence_number := 7,
          session_id := 1, logical_clock := 0 } 2).table.sessions
      = (NatMap.empty.insert 1
          { client_address := 0, session_id := 1, expected_sequence := 6,
            active := true, timer := true } : NatMap B.ServerSession) ∧
    (B.UDPServer.handle_client
        { sessions := NatMap.empty.insert 1
            { client_address := 0, session_id := 1, expected_sequence := 6,
              active := true, timer := true },
          logical_clock := 3 }
        { magic := 0xC461, version := 1, command := DATA, sequence_number := 7,
          session_id := 1, logical_clock := 0 } 2).sent = [] ∧
    (B.UDPServer.handle_client
        { sessions := NatMap.empty.insert 1
            { client_address := 0, session_id := 1, expected_sequence := 6,
              active := true, timer := true },
          logical_clock := 3 }
        { magic := 0xC461, version := 1, command := DATA, sequence_number := 7,
          session_id := 1, logical_clock := 0 } 2).rejection_sent_to = some 2 ∧
    (B.UDPServer.handle_client
        { sessions := NatMap.empty.insert 1
            { client_address := 0, session_id := 1, expected_sequence := 6,
              active := true, timer := true },
          logical_clock := 3 }
        { magic := 0xC461, version := 1, command := DATA, sequence_number := 7,
          session_id := 1, logical_clock := 0 } 2).outcome
      = B.ClientOutcome.rejected :=
  claim_C6_collision_isolation
    { sessions := NatMap.empty.insert 1
        { client_address := 0, session_id := 1, expected_sequence_number := 6,
          state := "RECEIVE", idle_timer := true },
      client_addresses := NatMap.empty.insert 1 0,
      logical_clock := 3 } 1 7 DATA 2 0
    { client_address := 0, session_id := 1, expected_sequence_number := 6,
      state := "RECEIVE", idle_timer := true }
    { sessions := NatMap.empty.insert 1
        { client_address := 0, session_id := 1, expected_sequence := 6,
          active := true, timer := true },
      logical_clock := 3 }
    { magic := 0xC461, version := 1, command := DATA, sequence_number := 7,
      session_id := 1, logical_clock := 0 } 2
    { client_address := 0, session_id := 1, expected_sequence := 6,
      active := true, timer := true }
    rfl rfl (by decide) rfl (by decide)

/-- C7 counterexample: the claim fails on the B implementation.  When the
idle timer of session 1 fires, issue_timeout sends GOODBYE and clears the
active flag, but the session is NOT removed from the session table: the
entry for key 1 is still present afterwards. -/
theorem claim_C7_counterexample :
    ∃ t2 r, B.UDPServer.timeout_step
        { sessions := NatMap.empty.insert 1
            { client_address := 0, session_id := 1, expected_sequence := 2,
              active := true, timer := true },
          logical_clock := 0 } 1
      = some (t2, r) ∧ t2.sessions 1 ≠ none := by
  refine ⟨_, _, rfl, ?_⟩
  simp [NatMap.insert]

/-- C7 amended: in the A implementation, idle-timer expiry on a session
still in the table emits a GOODBYE, puts the session in state DONE and
removes its entry from the sessions table (in this sequential model the
removal happens exactly once); in the B implementation, expiry emits a
GOODBYE and clears the active flag, but the entry stays in the session
table until some later datagram for that session_id is handled. -/
theorem claim_C7_idle_timeout (t : A.UDPServerProtocolState) (sid : Nat)
    (s : A.ServerSession) (tb : B.UDPServerState) (sidB : Nat) (sB : B.ServerSession)
    (h1 : t.sessions sid = some s) (h2 : tb.sessions sidB = some sB) :
    (∃ t2 fin hdr, A.ServerSession.session_timeout t sid = some (t2, fin, hdr) ∧
        hdr.command = GOODBYE ∧ fin.state = "DONE" ∧ t2.sessions sid = none ∧
        t2.client_addresses = t.client_addresses) ∧
    (∃ t2 r, B.UDPServer.timeout_step tb sidB = some (t2, r) ∧
        (∃ hdr, r.sent = [hdr] ∧ hdr.command = GOODBYE) ∧
        r.session.active = false ∧
        t2.sessions sidB = some r.session) := by
  constructor
  · simp only [A.ServerSession.session_timeout, h1]
    refine ⟨_, _, _, rfl, rfl, rfl, ?_, rfl⟩
    simp [NatMap.erase]
  · simp only [B.UDPServer.timeout_step, h2]
    refine ⟨_, _, rfl, ⟨_, rfl, rfl⟩, rfl, ?_⟩
    simp [NatMap.insert]

/-- Witness for C7 with one live session keyed 1 in each table. -/
theorem claim_C7_idle_timeout_witness :
    (∃ t2 fin hdr, A.ServerSession.session_timeout
        { sessions := NatMap.empty.insert 1
            { client_address := 0, session_id := 1, expected_sequence_number := 4,
              state := "RECEIVE", idle_timer := true },
          client_addresses := NatMap.empty.insert 1 0,
          logical_clock := 0 } 1 = some (t2, fin, hdr) ∧
        hdr.command = GOODBYE ∧ fin.state = "DONE" ∧ t2.sessions 1 = none ∧
        t2.client_addresses = (NatMap.empty.insert 1 0 : NatMap Nat)) ∧
    (∃ t2 r, B.UDPServer.timeout_step
        { sessions := NatMap.empty.insert 1
            { client_address := 0, session_id := 1, expected_sequence := 2,
              active := true, timer := true },
          logical_clock := 0 } 1 = some (t2, r) ∧
        (∃ hdr, r.sent = [hdr] ∧ hdr.command = GOODBYE) ∧
        r.session.active = false ∧
        t2.sessions 1 = some r.session) :=
  claim_C7_idle_timeout
    { sessions := NatMap.empty.insert 1
        { client_address := 0, session_id := 1, expected_sequence_number := 4,
          state := "RECEIVE", idle_timer := true },
      client_addresses := NatMap.empty.insert 1 0,
      logical_clock := 0 } 1
    { client_address := 0, session_id := 1, expected_sequence_number := 4,
      state := "RECEIVE", idle_timer := true }
    { sessions := NatMap.empty.insert 1
        { client_address := 0, session_id := 1, expected_sequence := 2,
          active := true, timer := true },
      logical_clock := 0 } 1
    { client_address := 0, session_id := 1, expected_sequence := 2,
      active := true, timer := true }
    rfl rfl

/-- C8 counterexample: the claim fails on the A implementation.  A fresh
session in state WAIT_FOR_HELLO receiving a well-formed DATA datagram
sends nothing, keeps its state and is not terminated: handle_data is a
no-op outside state RECEIVE, where the claim requires a GOODBYE reply and
termination. -/
theorem claim_C8_counterexample :
    (A.ServerSession.handle_message (A.ServerSession.init 0 1 0) 0
        { magic := 0xC461, version := 1, command := DATA, sequence_number := 3,
          session_id := 1, logical_clock := 0 }).sent = [] ∧
    (A.ServerSession.handle_message (A.ServerSession.init 0 1 0) 0
        { magic := 0xC461, version := 1, command := DATA, sequence_number := 3,
          session_id := 1, logical_clock := 0 }).session.state = "WAIT_FOR_HELLO" ∧
    (A.ServerSession.handle_message (A.ServerSession.init 0 1 0) 0
        { magic := 0xC461, version := 1, command := DATA, sequence_number := 3,
          session_id := 1, logical_clock := 0 }).terminated = false := by
  exact ⟨rfl, rfl, rfl⟩

/-- C8 amended: an A session in state WAIT_FOR_HELLO receiving a
well-formed datagram whose command is neither HELLO nor DATA nor GOODBYE
(for instance ALIVE) replies GOODBYE and terminates; but a DATA or a
GOODBYE received in that state is silently ignored with no reply, no
state change and no termination.  The B implementation has no waiting
state: a non-HELLO command for an unknown session_id is dropped at
dispatch with no reply and no table change. -/
theorem claim_C8_non_hello_in_initial_state (s : A.ServerSession) (lc : Nat)
    (h : Header) (tb : B.UDPServerState) (addrB : Nat) (hd : Header)
    (hstate : s.state = "WAIT_FOR_HELLO")
    (hmagic : h.magic = 0xC461) (hver : h.version = 1)
    (hsid : h.session_id = s.session_id)
    (hb1 : tb.sessions hd.session_id = none) (hb2 : hd.command ≠ HELLO) :
    (h.command ≠ HELLO → h.command ≠ DATA → h.command ≠ GOODBYE →
      (∃ hdr, (A.ServerSession.handle_message s lc h).sent = [hdr] ∧
        hdr.command = GOODBYE) ∧
      (A.ServerSession.handle_message s lc h).session.state = "DONE" ∧
      (A.ServerSession.handle_message s lc h).terminated = true) ∧
    (h.command = DATA →
      (A.ServerSession.handle_message s lc h).sent = [] ∧
      (A.ServerSession.handle_message s lc h).session = s ∧
      (A.ServerSession.handle_message s lc h).terminated = false) ∧
    (h.command = GOODBYE →
      (A.ServerSession.handle_message s lc h).sent = [] ∧
      (A.ServerSession.handle_message s lc h).session = s ∧
      (A.ServerSession.handle_message s lc h).terminated = false) ∧
    ((B.UDPServer.handle_client tb hd addrB).table.sessions = tb.sessions ∧
     (B.UDPServer.handle_client tb hd addrB).sent = [] ∧
     (B.UDPServer.handle_client tb hd addrB).outcome
        = B.ClientOutcome.ignored_unknown) := by
  refine ⟨?_, ?_, ?_, ?_⟩
  · intro hc1 hc2 hc3
    simp only [HELLO, DATA, GOODBYE] at hc1 hc2 hc3
    simp [A.ServerSession.handle_message, A.ServerSession.send_message,
      hmagic, hver, hsid, hc1, hc2, hc3, HELLO, DATA, GOODBYE]
  · intro hc
    simp [A.ServerSession.handle_message, A.ServerSession.handle_data,
      hmagic, hver, hsid, hc, hstate, HELLO, DATA]
  · intro hc
    simp [A.ServerSession.handle_message, A.ServerSession.handle_goodbye,
      hmagic, hver, hsid, hc, hstate, HELLO, DATA, GOODBYE]
  · refine ⟨?_, ?_, ?_⟩ <;> simp [B.UDPServer.handle_client, hb1, hb2]

/-- Witness for C8: a fresh A session receiving ALIVE, DATA and GOODBYE,
and a B table with no sessions receiving DATA for an unknown id. -/
theorem claim_C8_non_hello_in_initial_state_witness :
    ((3 : Nat) ≠ HELLO → (3 : Nat) ≠ DATA → (3 : Nat) ≠ GOODBYE →
      (∃ hdr, (A.ServerSession.handle_message (A.ServerSession.init 0 1 0) 0
          { magic := 0xC461, version := 1, command := 3, sequence_number := 0,
            session_id := 1, logical_clock := 0 }).sent = [hdr] ∧
        hdr.command = GOODBYE) ∧
      (A.ServerSession.handle_message (A.ServerSession.init 0 1 0) 0
          { magic := 0xC461, version := 1, command := 3, sequence_number := 0,
            session_id := 1, logical_clock := 0 }).session.state = "DONE" ∧
      (A.ServerSession.handle_message (A.ServerSession.init 0 1 0) 0
          { magic := 0xC461, version := 1, command := 3, sequence_number := 0,
            session_id := 1, logical_clock := 0 }).terminated = true) ∧
    ((3 : Nat) = DATA →
      (A.ServerSession.handle_message (A.ServerSession.init 0 1 0) 0
          { magic := 0xC461, version := 1, command := 3, sequence_number := 0,
            session_id := 1, logical_clock := 0 }).sent = [] ∧
      (A.ServerSession.handle_message (A.ServerSession.init 0 1 0) 0
          { magic := 0xC461, version := 1, command := 3, sequence_number := 0,
            session_id := 1, logical_clock := 0 }).session = A.ServerSession.init 0 1 0 ∧
      (A.ServerSession.handle_message (A.ServerSession.init 0 1 0) 0
          { magic := 0xC461, version := 1, command := 3, sequence_number := 0,
            session_id := 1, logical_clock := 0 }).terminated = false) ∧
    ((3 : Nat) = GOODBYE →
      (A.ServerSession.handle_message (A.ServerSession.init 0 1 0) 0
          { magic := 0xC461, version := 1, command := 3, sequence_number := 0,
            session_id := 1, logical_clock := 0 }).sent = [] ∧
      (A.ServerSession.handle_message (A.ServerSession.init 0 1 0) 0
          { magic := 0xC461, version := 1, command := 3, sequence_number := 0,
            session_id := 1, logical_clock := 0 }).session = A.ServerSession.init 0 1 0 ∧
      (A.ServerSession.handle_message (A.ServerSession.init 0 1 0) 0
          { magic := 0xC461, version := 1, command := 3, sequence_number := 0,
            session_id := 1, logical_clock := 0 }).terminated = false) ∧
    ((B.UDPServer.handle_client { sessions := NatMap.empty, logical_clock := 0 }
        { magic := 0xC461, version := 1, command := DATA, sequence_number := 0,
          session_id := 5, logical_clock := 0 } 2).table.sessions
        = (NatMap.empty : NatMap B.ServerSession) ∧
     (B.UDPServer.handle_client { sessions := NatMap.empty, logical_clock := 0 }
        { magic := 0xC461, version := 1, command := DATA, sequence_number := 0,
          session_id := 5, logical_clock := 0 } 2).sent = [] ∧
     (B.UDPServer.handle_client { sessions := NatMap.empty, logical_clock := 0 }
        { magic := 0xC461, version := 1, command := DATA, sequence_number := 0,
          session_id := 5, logical_clock := 0 } 2).outcome
        = B.ClientOutcome.ignored_unknown) :=
  claim_C8_non_hello_in_initial_state (A.ServerSession.init 0 1 0) 0
    { magic := 0xC461, version := 1, command := 3, sequence_number := 0,
      session_id := 1, logical_clock := 0 }
    { sessions := NatMap.empty, logical_clock := 0 } 2
    { magic := 0xC461, version := 1, command := DATA, sequence_number := 0,
      session_id := 5, logical_clock := 0 }
    rfl rfl rfl rfl rfl (by decide)

/-- C10: in the A server, every table operation (datagram dispatch, task
delivery of a datagram to its session, idle-timer expiry) preserves the
invariant that every key of the sessions dict is also a key of the
client_addresses dict.  Creating a session inserts the session_id into
both dicts; delivering a message or timing out never touches
client_addresses, and termination deletes only from sessions, so the
session_id to peer-address binding survives termination until a later
HELLO reusing the session_id overwrites it. -/
theorem claim_C10_sessions_subset_addresses (t t2 : A.UDPServerProtocolState)
    (st : A.Step) (happly : A.Step.apply t st = some t2)
    (hinv : A.sessions_bound t) :
    A.sessions_bound t2 ∧
    (match st with
     | A.Step.datagram sid0 seq0 cmd0 addr0 =>
         t.sessions sid0 = none → cmd0 = HELLO →
           t2.sessions sid0 = some (A.ServerSession.init addr0 sid0 seq0) ∧
           t2.client_addresses sid0 = some addr0
     | A.Step.deliver _ _ => t2.client_addresses = t.client_addresses
     | A.Step.timeout sid0 =>
         t2.client_addresses = t.client_addresses ∧ t2.sessions sid0 = none) := by
  cases st with
  | datagram sid0 seq0 cmd0 addr0 =>
      simp only [A.Step.apply, A.UDPServerProtocol.datagram_received] at happly
      cases hs : t.sessions sid0 with
      | some s =>
          rw [hs] at happly
          cases hc : t.client_addresses sid0 with
          | none =>
              rw [hc] at happly
              simp at happly
          | some bound =>
              rw [hc] at happly
              by_cases he : addr0 = bound
              · simp [he] at happly
                subst happly
                refine ⟨hinv, ?_⟩
                intro h0 _
                rw [hs] at h0
                exact Option.noConfusion h0
              · simp [he] at happly
                subst happly
                refine ⟨hinv, ?_⟩
                intro h0 _
                rw [hs] at h0
                exact Option.noConfusion h0
      | none =>
          rw [hs] at happly
          by_cases hcmd : cmd0 = HELLO
          · simp [hcmd] at happly
            subst happly
            constructor
            · intro k hk
              by_cases hk0 : k = sid0
              · simp [NatMap.insert, hk0]
              · simp only [NatMap.insert, if_neg hk0] at hk ⊢
                exact hinv k hk
            · intro _ _
              constructor <;> simp [NatMap.insert]
          · simp [hcmd] at happly
            subst happly
            exact ⟨hinv, fun _ h1 => absurd h1 hcmd⟩
  | deliver sid0 hdr =>
      simp only [A.Step.apply, A.UDPServerProtocol.deliver] at happly
      cases hs : t.sessions sid0 with
      | none =>
          rw [hs] at happly
          simp at happly
      | some s =>
          rw [hs] at happly
          by_cases hterm : (A.ServerSession.handle_message s t.logical_clock hdr).terminated
          · simp [hterm] at happly
            subst happly
            refine ⟨?_, rfl⟩
            intro k hk
            by_cases hk0 : k = sid0
            · simp [NatMap.erase, hk0] at hk
            · simp only [NatMap.erase, if_neg hk0] at hk
              exact hinv k hk
          · simp [hterm] at happly
            subst happly
            refine ⟨?_, rfl⟩
            intro k hk
            by_cases hk0 : k = sid0
            · subst hk0
              apply hinv k
              simp [hs]
            · simp only [NatMap.insert, if_neg hk0] at hk
              exact hinv k hk
  | timeout sid0 =>
      simp only [A.Step.apply, A.ServerSession.session_timeout] at happly
      cases hs : t.sessions sid0 with
      | none =>
          rw [hs] at happly
          simp at happly
      | some s =>
          rw [hs] at happly
          simp only [Option.some.injEq] at happly
          subst happly
          refine ⟨?_, rfl, ?_⟩
          · intro k hk
            by_cases hk0 : k = sid0
            · simp [NatMap.erase, hk0] at hk
            · simp only [NatMap.erase, if_neg hk0] at hk
              exact hinv k hk
          · simp [NatMap.erase]

/-- Witness for C10: the timeout step on a table holding session 1. -/
theorem claim_C10_sessions_subset_addresses_witness :
    A.sessions_bound
      { sessions :=
          (NatMap.empty.insert 1
            { client_address := 0, session_id := 1, expected_sequence_number := 4,
              state := "RECEIVE", idle_timer := true }).erase 1,
        client_addresses := NatMap.empty.insert 1 0,
        logical_clock := 1 } ∧
    ((NatMap.empty.insert 1 0 : NatMap Nat) = NatMap.empty.insert 1 0 ∧
      ((NatMap.empty.insert 1
          { client_address := 0, session_id := 1, expected_sequence_number := 4,
            state := "RECEIVE", idle_timer := true }).erase 1 : NatMap A.ServerSession) 1
        = none) := by
  have h := claim_C10_sessions_subset_addresses
    { sessions := NatMap.empty.insert 1
        { client_address := 0, session_id := 1, expected_sequence_number := 4,
          state := "RECEIVE", idle_timer := true },
      client_addresses := NatMap.empty.insert 1 0,
      logical_clock := 0 }
    { sessions :=
        (NatMap.empty.insert 1
          { client_address := 0, session_id := 1, expected_sequence_number := 4,
            state := "RECEIVE", idle_timer := true }).erase 1,
      client_addresses := NatMap.empty.insert 1 0,
      logical_clock := 1 }
    (A.Step.timeout 1) rfl
    (by
      intro k hk
      by_cases hk0 : k = 1
      · simp [NatMap.insert, hk0]
      · simp [NatMap.insert, NatMap.empty, hk0] at hk)
  exact ⟨h.1, h.2⟩
